import Mathlib

/-!
Shallow embedding of the Conversation Session Orchestrator of the
`jacks-vscode-chatbot` extension (source file `src/panels/AIPanel.ts`,
types from `src/types/chat.ts`).

The embedding models the observable behaviour of `AIPanel._handleQuestion`
and `AIPanel._callOpenAI`:

* the Message Log (`AIPanel._messages`) is a `List Turn`;
* the network environment for one call is an `ApiOutcome` value describing
  what the single `axios.post` exchange produced (a well-formed response
  with its choice list, an axios-classified HTTP or transport failure, or
  any other exception raised during the call);
* JavaScript exceptions are modelled with `Except String`, carrying the
  message of the thrown `Error`;
* the webview `postMessage` calls become a list of outbound `UIEvent`
  values, and each performed network attempt records the request body
  messages it sent (the Request Envelope projection), so that a call that
  fails before the network is visible as an empty request list.

A missing API key is modelled as the empty string: `config.getApiKey()`
yields a string and the source guards with JavaScript truthiness
(`if (!this._apiKey)`), under which the empty string is the falsy case.
Likewise `if (response)` on the returned text is an emptiness test, and
`a || b` on an optional string field is modelled by `jsOrElse`.
-/

/-- Role of a conversation turn. The TypeScript `Message` interface allows
`user` and `system`; `AIMessage` uses `assistant`. -/
inductive Role where
  | user
  | assistant
  | system
  deriving DecidableEq, Repr

/-- Attached image payload, from the `image` field of the `Message`
interface in `src/types/chat.ts`: base64 data URI, MIME type, optional
original filename. -/
structure ImagePayload where
  data : String
  type : String
  name : Option String
  deriving DecidableEq, Repr

/-- One conversation turn. Unifies the TypeScript `Message` (user/system
turns, optional timestamp and image) and `AIMessage` (assistant turns,
content only); fields absent in the source object are `none`. -/
structure Turn where
  role : Role
  content : String
  timestamp : Option Nat
  image : Option ImagePayload
  deriving DecidableEq, Repr

/-- One entry of the Request Envelope: the projection of a turn kept when
`_callOpenAI` formats the log for the provider (`messages.map(msg =>
(role, content))`, `AIPanel.ts` lines 176-179). -/
structure EnvelopeEntry where
  role : Role
  content : String
  deriving DecidableEq, Repr

/-- The `message` object inside one provider choice
(`choices[i].message` of the `AIResponse` interface). -/
structure ChoiceMessage where
  role : String
  content : String
  deriving DecidableEq, Repr

/-- One element of the `choices` array of a provider response. -/
structure Choice where
  message : ChoiceMessage
  deriving DecidableEq, Repr

/-- What the single `axios.post` exchange of `_callOpenAI` produced:
a 2xx response carrying a choice list (an absent `choices` field is the
empty list, matching the `data.choices && data.choices.length > 0` guard),
an error that `axios.isAxiosError` recognises (optional HTTP status,
optional `response.data.error.message` body field, and the transport
error message), or any other exception with its stringified message. -/
inductive ApiOutcome where
  | response (choices : List Choice)
  | axiosError (statusCode : Option Nat) (bodyErrorMessage : Option String)
      (transportMessage : String)
  | otherError (message : String)
  deriving DecidableEq, Repr

/-- Outbound UI event posted to the webview: `type response` or
`type error`, each with a `content` string. -/
inductive UIEvent where
  | response (content : String)
  | error (content : String)
  deriving DecidableEq, Repr

/-- The state of one panel that the modelled operations read or write:
the resolved API key (empty string when not configured) and the Message
Log `_messages`. -/
structure PanelState where
  apiKey : String
  messages : List Turn
  deriving DecidableEq, Repr

/-- JavaScript error value distinguished by the `axios.isAxiosError` test
in the catch block of `_callOpenAI`. -/
inductive JsError where
  | axios (statusCode : Option Nat) (bodyErrorMessage : Option String)
      (transportMessage : String)
  | plain (message : String)
  deriving DecidableEq, Repr

/-- JavaScript `a || b` on an optional string field: the left operand is
used only when present and truthy (non-empty). Models
`error.response?.data?.error?.message || error.message`. -/
def jsOrElse (a : Option String) (b : String) : String :=
  match a with
  | some s => if s = "" then b else s
  | none => b

/-- `formattedMessages` of `_callOpenAI`: the log projected to
`(role, content)` pairs, in order (`AIPanel.ts` lines 176-179). -/
def formatMessages (msgs : List Turn) : List EnvelopeEntry :=
  msgs.map fun m => { role := m.role, content := m.content }

/-- The `try` block of `_callOpenAI` after the network exchange: with at
least one choice it returns `choices[0].message.content`, with zero
choices it throws `No response from OpenAI API`; an axios failure or
other exception raised by the `await axios.post` propagates as the
corresponding `JsError` (`AIPanel.ts` lines 191-213). -/
def callTry (outcome : ApiOutcome) : Except JsError String :=
  match outcome with
  | ApiOutcome.response choices =>
    match choices with
    | c :: _ => Except.ok c.message.content
    | [] => Except.error (JsError.plain "No response from OpenAI API")
  | ApiOutcome.axiosError statusCode bodyMsg transportMsg =>
    Except.error (JsError.axios statusCode bodyMsg transportMsg)
  | ApiOutcome.otherError msg =>
    Except.error (JsError.plain msg)

/-- The `catch` block of `_callOpenAI` (`AIPanel.ts` lines 214-235): an
axios error is rethrown as `API error: <body message || transport
message>`; any other error as `Error calling OpenAI API: <message>`. -/
def callCatch (e : JsError) : String :=
  match e with
  | JsError.axios _ bodyMsg transportMsg =>
    "API error: " ++ jsOrElse bodyMsg transportMsg
  | JsError.plain msg =>
    "Error calling OpenAI API: " ++ msg

/-- The result of `_callOpenAI` as seen by its caller: the returned text,
or the message of the error rethrown by its catch block. -/
def callResult (outcome : ApiOutcome) : Except String String :=
  match callTry outcome with
  | Except.ok s => Except.ok s
  | Except.error e => Except.error (callCatch e)

/-- `_callOpenAI(messages)` (`AIPanel.ts` lines 169-236): records the
Request Envelope messages it serialises and sends, and yields the text of
the first choice or throws. -/
def callOpenAI (msgs : List Turn) (outcome : ApiOutcome) :
    List EnvelopeEntry × Except String String :=
  (formatMessages msgs, callResult outcome)

/-- Observable result of one `_handleQuestion` invocation: the Message
Log afterwards, the outbound UI events posted to the webview in order,
and the envelope messages of each network attempt performed. -/
structure HandleResult where
  messages : List Turn
  events : List UIEvent
  requests : List (List EnvelopeEntry)
  deriving DecidableEq, Repr

/-- The `try` block of `_handleQuestion` (`AIPanel.ts` lines 119-153):
throws on a missing API key; otherwise pushes the user turn, calls
`_callOpenAI` on the grown log, and on a truthy (non-empty) returned text
pushes the assistant turn and posts the `response` event. Returns the log
as mutated so far, the network attempts made, and either the posted
events or the message of the exception escaping the block. -/
def handleQuestionBody (apiKey : String) (msgs : List Turn) (now : Nat)
    (question : String) (outcome : ApiOutcome) :
    List Turn × List (List EnvelopeEntry) × Except String (List UIEvent) :=
  if apiKey = "" then
    (msgs, [],
      Except.error "OpenAI API key is not configured. Please set it in your settings.")
  else
    let userMessage : Turn :=
      { role := Role.user, content := question, timestamp := some now, image := none }
    let msgs1 := msgs ++ [userMessage]
    match callOpenAI msgs1 outcome with
    | (env, Except.error e) => (msgs1, [env], Except.error e)
    | (env, Except.ok response) =>
      if response = "" then
        (msgs1, [env], Except.ok [])
      else
        (msgs1 ++ [{ role := Role.assistant, content := response,
                     timestamp := none, image := none }],
         [env], Except.ok [UIEvent.response response])

/-- `_handleQuestion(question)` (`AIPanel.ts` lines 118-167): runs the
try block; its catch posts a single `error` event carrying the message of
the caught error. The log keeps whatever the try block pushed before
failing. -/
def handleQuestion (st : PanelState) (now : Nat) (question : String)
    (outcome : ApiOutcome) : HandleResult :=
  match handleQuestionBody st.apiKey st.messages now question outcome with
  | (msgs, reqs, Except.ok evs) =>
    { messages := msgs, events := evs, requests := reqs }
  | (msgs, reqs, Except.error e) =>
    { messages := msgs, events := [UIEvent.error e], requests := reqs }

/-- An inbound webview message as received by the `onDidReceiveMessage`
handler (`AIPanel.ts` lines 56-66): a command, the question text, and the
optional image payload the webview script attaches. -/
structure InboundMessage where
  command : String
  text : String
  image : Option ImagePayload
  deriving DecidableEq, Repr

/-- The `onDidReceiveMessage` handler (`AIPanel.ts` lines 56-66): on the
`askQuestion` command it invokes `_handleQuestion(message.text)`,
forwarding only the text; any other command is ignored. -/
def onDidReceiveMessage (st : PanelState) (now : Nat) (outcome : ApiOutcome)
    (m : InboundMessage) : HandleResult :=
  if m.command = "askQuestion" then
    handleQuestion st now m.text outcome
  else
    { messages := st.messages, events := [], requests := [] }

/-- One inbound call for a session run: the clock value, the question
text, and the network outcome of that exchange. -/
structure CallInput where
  now : Nat
  question : String
  outcome : ApiOutcome
  deriving DecidableEq, Repr

/-- One session step: `_handleQuestion` updates `_messages` in place; the
API key is a configuration read and does not change. -/
def stepSession (st : PanelState) (c : CallInput) : PanelState :=
  { st with messages := (handleQuestion st c.now c.question c.outcome).messages }

/-- A sequence of `_handleQuestion` invocations on one panel. -/
def runSession (st : PanelState) (calls : List CallInput) : PanelState :=
  calls.foldl stepSession st

deriving instance DecidableEq for Except

/-! ## Helper lemmas -/

/-- With a missing (empty) API key, `_handleQuestion` posts the
configuration error and touches nothing else. -/
theorem handleQuestion_missingKey (st : PanelState) (now : Nat) (q : String)
    (o : ApiOutcome) (hk : st.apiKey = "") :
    handleQuestion st now q o =
      { messages := st.messages,
        events :=
          [UIEvent.error
            "OpenAI API key is not configured. Please set it in your settings."],
        requests := [] } := by
  simp [handleQuestion, handleQuestionBody, hk]

/-- With a configured key and a failing call, `_handleQuestion` keeps the
pushed user turn and posts the error event. -/
theorem handleQuestion_callError (st : PanelState) (now : Nat) (q : String)
    (o : ApiOutcome) (e : String) (hk : ¬ st.apiKey = "")
    (he : callResult o = Except.error e) :
    handleQuestion st now q o =
      { messages := st.messages ++ [⟨Role.user, q, some now, none⟩],
        events := [UIEvent.error e],
        requests := [formatMessages (st.messages ++ [⟨Role.user, q, some now, none⟩])] } := by
  simp [handleQuestion, handleQuestionBody, callOpenAI, hk, he]

/-- With a configured key and a call returning non-empty text,
`_handleQuestion` pushes both turns and posts the response event. -/
theorem handleQuestion_callOk (st : PanelState) (now : Nat) (q : String)
    (o : ApiOutcome) (t : String) (hk : ¬ st.apiKey = "")
    (ht : callResult o = Except.ok t) (hne : ¬ t = "") :
    handleQuestion st now q o =
      { messages := st.messages ++ [⟨Role.user, q, some now, none⟩,
                                    ⟨Role.assistant, t, none, none⟩],
        events := [UIEvent.response t],
        requests := [formatMessages (st.messages ++ [⟨Role.user, q, some now, none⟩])] } := by
  simp [handleQuestion, handleQuestionBody, callOpenAI, hk, ht, hne]

/-- With a configured key and a call returning the empty string,
`_handleQuestion` keeps only the user turn and posts nothing. -/
theorem handleQuestion_callOkEmpty (st : PanelState) (now : Nat) (q : String)
    (o : ApiOutcome) (hk : ¬ st.apiKey = "")
    (ht : callResult o = Except.ok "") :
    handleQuestion st now q o =
      { messages := st.messages ++ [⟨Role.user, q, some now, none⟩],
        events := [],
        requests := [formatMessages (st.messages ++ [⟨Role.user, q, some now, none⟩])] } := by
  simp [handleQuestion, handleQuestionBody, callOpenAI, hk, ht]

/-! ## Claims -/

/-- C1: if the configured API credential is absent when the question
handler is invoked, the operation fails before any network attempt (no
request is issued), the Message Log length increases by 0 (the input is
dropped), and the outbound UI event is an error whose content mentions
that the API key is not configured. -/
theorem missing_api_key_drops_input (st : PanelState) (now : Nat) (q : String)
    (o : ApiOutcome) (hk : st.apiKey = "") :
    handleQuestion st now q o =
      { messages := st.messages,
        events :=
          [UIEvent.error
            "OpenAI API key is not configured. Please set it in your settings."],
        requests := [] } ∧
    (handleQuestion st now q o).messages.length = st.messages.length ∧
    "API key is not configured".data <:+:
      "OpenAI API key is not configured. Please set it in your settings.".data := by
  refine ⟨handleQuestion_missingKey st now q o hk, ?_, by decide⟩
  rw [handleQuestion_missingKey st now q o hk]

/-- Witness for C1 at the empty panel with an empty key. -/
theorem missing_api_key_drops_input_witness :
    (PanelState.mk "" []).apiKey = "" ∧
    (handleQuestion (PanelState.mk "" []) 0 "hi" (ApiOutcome.response []) =
      { messages := [],
        events :=
          [UIEvent.error
            "OpenAI API key is not configured. Please set it in your settings."],
        requests := [] } ∧
    (handleQuestion (PanelState.mk "" []) 0 "hi" (ApiOutcome.response [])).messages.length =
      (PanelState.mk "" []).messages.length ∧
    "API key is not configured".data <:+:
      "OpenAI API key is not configured. Please set it in your settings.".data) :=
  ⟨rfl, missing_api_key_drops_input (PanelState.mk "" []) 0 "hi" (ApiOutcome.response []) rfl⟩

/-- C2 counterexample: with a configured key and an Inference Client call
that returns success carrying the empty string (a well-formed response
whose first choice has empty content), the Message Log grows by 1, not 2,
and no response event is emitted: the claim fails for this successful
exchange. -/
theorem success_with_empty_text_refutes_c2 :
    (callOpenAI [⟨Role.user, "q", some 0, none⟩]
        (ApiOutcome.response [⟨⟨"assistant", ""⟩⟩])).2 = Except.ok "" ∧
    ¬ (PanelState.mk "key" []).apiKey = "" ∧
    (handleQuestion (PanelState.mk "key" []) 0 "q"
        (ApiOutcome.response [⟨⟨"assistant", ""⟩⟩])).messages.length = 1 ∧
    (handleQuestion (PanelState.mk "key" []) 0 "q"
        (ApiOutcome.response [⟨⟨"assistant", ""⟩⟩])).events = [] := by
  decide

/-- C2 (amended): when the credential precondition passes and the
Inference Client returns success with NON-EMPTY text, the Message Log
grows by exactly 2 — the user turn then an assistant turn whose content
equals the returned text — and a response event carrying that text is
emitted. (The empty-string success case appends only the user turn and
emits nothing.) -/
theorem success_appends_two_and_responds (st : PanelState) (now : Nat)
    (q : String) (o : ApiOutcome) (t : String) (hk : ¬ st.apiKey = "")
    (ht : (callOpenAI (st.messages ++ [⟨Role.user, q, some now, none⟩]) o).2 =
      Except.ok t)
    (hne : ¬ t = "") :
    (handleQuestion st now q o).messages =
      st.messages ++ [⟨Role.user, q, some now, none⟩,
                      ⟨Role.assistant, t, none, none⟩] ∧
    (handleQuestion st now q o).messages.length = st.messages.length + 2 ∧
    (handleQuestion st now q o).events = [UIEvent.response t] := by
  have ht' : callResult o = Except.ok t := ht
  rw [handleQuestion_callOk st now q o t hk ht' hne]
  simp

/-- Witness for the amended C2 on a successful exchange returning 42. -/
theorem success_appends_two_and_responds_witness :
    ¬ (PanelState.mk "key" []).apiKey = "" ∧
    (callOpenAI ((PanelState.mk "key" []).messages ++ [⟨Role.user, "q", some 3, none⟩])
        (ApiOutcome.response [⟨⟨"assistant", "42"⟩⟩])).2 = Except.ok "42" ∧
    ¬ ("42" : String) = "" ∧
    ((handleQuestion (PanelState.mk "key" []) 3 "q"
        (ApiOutcome.response [⟨⟨"assistant", "42"⟩⟩])).messages =
      (PanelState.mk "key" []).messages ++
        [⟨Role.user, "q", some 3, none⟩, ⟨Role.assistant, "42", none, none⟩] ∧
    (handleQuestion (PanelState.mk "key" []) 3 "q"
        (ApiOutcome.response [⟨⟨"assistant", "42"⟩⟩])).messages.length =
      (PanelState.mk "key" []).messages.length + 2 ∧
    (handleQuestion (PanelState.mk "key" []) 3 "q"
        (ApiOutcome.response [⟨⟨"assistant", "42"⟩⟩])).events =
      [UIEvent.response "42"]) :=
  ⟨by decide, by decide, by decide,
    success_appends_two_and_responds (PanelState.mk "key" []) 3 "q"
      (ApiOutcome.response [⟨⟨"assistant", "42"⟩⟩]) "42"
      (by decide) (by decide) (by decide)⟩

/-- C3: when the credential precondition passes but the Inference Client
call fails (throws), the Message Log grows by exactly 1 — the user turn
only, with no assistant turn — and an error event carrying the
human-readable failure message is emitted. -/
theorem failed_call_keeps_user_turn_only (st : PanelState) (now : Nat)
    (q : String) (o : ApiOutcome) (e : String) (hk : ¬ st.apiKey = "")
    (he : (callOpenAI (st.messages ++ [⟨Role.user, q, some now, none⟩]) o).2 =
      Except.error e) :
    (handleQuestion st now q o).messages =
      st.messages ++ [⟨Role.user, q, some now, none⟩] ∧
    (handleQuestion st now q o).messages.length = st.messages.length + 1 ∧
    ((handleQuestion st now q o).messages.drop st.messages.length =
      [⟨Role.user, q, some now, none⟩]) ∧
    (handleQuestion st now q o).events = [UIEvent.error e] := by
  have he' : callResult o = Except.error e := he
  rw [handleQuestion_callError st now q o e hk he']
  refine ⟨rfl, by simp, ?_, rfl⟩
  simp [List.drop_left]

/-- Witness for C3 on a transport failure. -/
theorem failed_call_keeps_user_turn_only_witness :
    ¬ (PanelState.mk "key" []).apiKey = "" ∧
    (callOpenAI ((PanelState.mk "key" []).messages ++ [⟨Role.user, "q", some 2, none⟩])
        (ApiOutcome.axiosError none none "socket hang up")).2 =
      Except.error "API error: socket hang up" ∧
    ((handleQuestion (PanelState.mk "key" []) 2 "q"
        (ApiOutcome.axiosError none none "socket hang up")).messages =
      (PanelState.mk "key" []).messages ++ [⟨Role.user, "q", some 2, none⟩] ∧
    (handleQuestion (PanelState.mk "key" []) 2 "q"
        (ApiOutcome.axiosError none none "socket hang up")).messages.length =
      (PanelState.mk "key" []).messages.length + 1 ∧
    ((handleQuestion (PanelState.mk "key" []) 2 "q"
        (ApiOutcome.axiosError none none "socket hang up")).messages.drop
      (PanelState.mk "key" []).messages.length =
      [⟨Role.user, "q", some 2, none⟩]) ∧
    (handleQuestion (PanelState.mk "key" []) 2 "q"
        (ApiOutcome.axiosError none none "socket hang up")).events =
      [UIEvent.error "API error: socket hang up"]) :=
  ⟨by decide, by decide,
    failed_call_keeps_user_turn_only (PanelState.mk "key" []) 2 "q"
      (ApiOutcome.axiosError none none "socket hang up")
      "API error: socket hang up" (by decide) (by decide)⟩

/-- C4 counterexample: the webview message handler forwards only the text
of an `askQuestion` event to `_handleQuestion`, so when an image payload
is submitted the appended user turn still carries `image = none`, not the
submitted payload: the claim that the turn has image set to the submitted
payload fails. -/
theorem image_payload_dropped_refutes_c4 :
    (onDidReceiveMessage (PanelState.mk "key" []) 7 (ApiOutcome.response [])
        ⟨"askQuestion", "hi",
          some ⟨"data:image/png;base64,AAAA", "image/png", some "cat.png"⟩⟩).messages =
      [⟨Role.user, "hi", some 7, none⟩] ∧
    ¬ (⟨Role.user, "hi", some 7, none⟩ : Turn).image =
      some ⟨"data:image/png;base64,AAAA", "image/png", some "cat.png"⟩ := by
  decide

/-- C4 (amended): once the credential precondition passes, the handler
constructs a user turn with role user, content equal to the submitted
text, timestamp set to the current time and image always `none` (the
submitted image payload is dropped because the dispatcher forwards only
the text), and appends it to the Message Log unconditionally before the
network call: for every network outcome the log starts with the prior
log followed by that turn, and any request sent already contains its
projection. -/
theorem user_turn_constructed_and_appended (st : PanelState) (now : Nat)
    (o : ApiOutcome) (m : InboundMessage) (hk : ¬ st.apiKey = "")
    (hc : m.command = "askQuestion") :
    ((onDidReceiveMessage st now o m).messages.take (st.messages.length + 1) =
      st.messages ++ [⟨Role.user, m.text, some now, none⟩]) ∧
    (∀ env ∈ (onDidReceiveMessage st now o m).requests,
      env = formatMessages (st.messages ++ [⟨Role.user, m.text, some now, none⟩])) := by
  have hu : ((st.messages ++ [⟨Role.user, m.text, some now, none⟩]) : List Turn).length =
      st.messages.length + 1 := by simp
  rw [onDidReceiveMessage, if_pos hc]
  cases hr : callResult o with
  | error e =>
    rw [handleQuestion_callError st now m.text o e hk hr]
    refine ⟨?_, by simp⟩
    show (st.messages ++ [⟨Role.user, m.text, some now, none⟩] : List Turn).take
      (st.messages.length + 1) = _
    rw [← hu, List.take_length]
  | ok t =>
    by_cases hte : t = ""
    · subst hte
      rw [handleQuestion_callOkEmpty st now m.text o hk hr]
      refine ⟨?_, by simp⟩
      show (st.messages ++ [⟨Role.user, m.text, some now, none⟩] : List Turn).take
        (st.messages.length + 1) = _
      rw [← hu, List.take_length]
    · rw [handleQuestion_callOk st now m.text o t hk hr hte]
      refine ⟨?_, by simp⟩
      show (st.messages ++ [⟨Role.user, m.text, some now, none⟩,
          ⟨Role.assistant, t, none, none⟩] : List Turn).take
        (st.messages.length + 1) = _
      have hsplit : (st.messages ++ [⟨Role.user, m.text, some now, none⟩,
          ⟨Role.assistant, t, none, none⟩] : List Turn) =
          (st.messages ++ [⟨Role.user, m.text, some now, none⟩]) ++
            [⟨Role.assistant, t, none, none⟩] := by simp
      rw [hsplit]
      exact List.take_left' hu

/-- Witness for the amended C4 with an image-carrying inbound event. -/
theorem user_turn_constructed_and_appended_witness :
    ¬ (PanelState.mk "key" []).apiKey = "" ∧
    (InboundMessage.mk "askQuestion" "hi"
        (some ⟨"data:image/png;base64,AAAA", "image/png", some "cat.png"⟩)).command =
      "askQuestion" ∧
    (((onDidReceiveMessage (PanelState.mk "key" []) 7 (ApiOutcome.response [])
        (InboundMessage.mk "askQuestion" "hi"
          (some ⟨"data:image/png;base64,AAAA", "image/png", some "cat.png"⟩))).messages.take
        ((PanelState.mk "key" []).messages.length + 1) =
      (PanelState.mk "key" []).messages ++ [⟨Role.user, "hi", some 7, none⟩]) ∧
    (∀ env ∈ (onDidReceiveMessage (PanelState.mk "key" []) 7 (ApiOutcome.response [])
        (InboundMessage.mk "askQuestion" "hi"
          (some ⟨"data:image/png;base64,AAAA", "image/png", some "cat.png"⟩))).requests,
      env = formatMessages ((PanelState.mk "key" []).messages ++
        [⟨Role.user, "hi", some 7, none⟩]))) :=
  ⟨by decide, rfl,
    user_turn_constructed_and_appended (PanelState.mk "key" []) 7
      (ApiOutcome.response [])
      (InboundMessage.mk "askQuestion" "hi"
        (some ⟨"data:image/png;base64,AAAA", "image/png", some "cat.png"⟩))
      (by decide) rfl⟩

/-- C5: the Request Envelope built by `_callOpenAI` contains exactly the
role and content projection of every turn of the log, in original order
(same length, and the entry at each index is the projection of the turn
at that index), and it is a pure function of the log alone: any two calls
on the same log, whatever their network outcomes, serialise identical
envelopes. -/
theorem envelope_is_ordered_projection (msgs : List Turn) (o : ApiOutcome) :
    ((callOpenAI msgs o).1.length = msgs.length) ∧
    (∀ i : Fin msgs.length,
      (callOpenAI msgs o).1[i.val]? =
        some ⟨(msgs.get i).role, (msgs.get i).content⟩) ∧
    (∀ o' : ApiOutcome, (callOpenAI msgs o).1 = (callOpenAI msgs o').1) := by
  refine ⟨by simp [callOpenAI, formatMessages], ?_, fun o' => rfl⟩
  intro i
  simp [callOpenAI, formatMessages, List.getElem?_map, List.getElem?_eq_getElem i.isLt]

/-- C6 counterexample: on a well-formed provider response whose choices
array is empty, the failure message produced by `_callOpenAI` is not the
claimed string `No response from API`: the inner error says
`No response from OpenAI API` and the catch block of the client itself
re-wraps it into `Error calling OpenAI API: No response from OpenAI API`. -/
theorem empty_choices_message_refutes_c6 :
    (callOpenAI [] (ApiOutcome.response [])).2 =
      Except.error "Error calling OpenAI API: No response from OpenAI API" ∧
    ¬ (callOpenAI [] (ApiOutcome.response [])).2 =
      Except.error "No response from API" := by
  decide

/-- C6 (amended): when the provider returns a well-formed response whose
choices array is empty, the call fails with the message `Error calling
OpenAI API: No response from OpenAI API` (the inner `No response from
OpenAI API` error is caught and re-wrapped by the catch block of the
client itself), the outbound UI event is an error carrying that message,
and no assistant turn is appended to the Message Log. -/
theorem empty_choices_yields_wrapped_error (st : PanelState) (now : Nat)
    (q : String) (hk : ¬ st.apiKey = "") :
    (callOpenAI (st.messages ++ [⟨Role.user, q, some now, none⟩])
        (ApiOutcome.response [])).2 =
      Except.error "Error calling OpenAI API: No response from OpenAI API" ∧
    handleQuestion st now q (ApiOutcome.response []) =
      { messages := st.messages ++ [⟨Role.user, q, some now, none⟩],
        events :=
          [UIEvent.error "Error calling OpenAI API: No response from OpenAI API"],
        requests :=
          [formatMessages (st.messages ++ [⟨Role.user, q, some now, none⟩])] } ∧
    ((handleQuestion st now q (ApiOutcome.response [])).messages.drop
      st.messages.length = [⟨Role.user, q, some now, none⟩]) := by
  refine ⟨rfl, handleQuestion_callError st now q (ApiOutcome.response [])
    "Error calling OpenAI API: No response from OpenAI API" hk rfl, ?_⟩
  rw [handleQuestion_callError st now q (ApiOutcome.response [])
    "Error calling OpenAI API: No response from OpenAI API" hk rfl]
  simp [List.drop_left]

/-- Witness for the amended C6 at a concrete panel. -/
theorem empty_choices_yields_wrapped_error_witness :
    ¬ (PanelState.mk "key" []).apiKey = "" ∧
    ((callOpenAI ((PanelState.mk "key" []).messages ++ [⟨Role.user, "q", some 1, none⟩])
        (ApiOutcome.response [])).2 =
      Except.error "Error calling OpenAI API: No response from OpenAI API" ∧
    handleQuestion (PanelState.mk "key" []) 1 "q" (ApiOutcome.response []) =
      { messages := (PanelState.mk "key" []).messages ++ [⟨Role.user, "q", some 1, none⟩],
        events :=
          [UIEvent.error "Error calling OpenAI API: No response from OpenAI API"],
        requests :=
          [formatMessages ((PanelState.mk "key" []).messages ++
            [⟨Role.user, "q", some 1, none⟩])] } ∧
    ((handleQuestion (PanelState.mk "key" []) 1 "q"
        (ApiOutcome.response [])).messages.drop
      (PanelState.mk "key" []).messages.length = [⟨Role.user, "q", some 1, none⟩])) :=
  ⟨by decide, empty_choices_yields_wrapped_error (PanelState.mk "key" []) 1 "q" (by decide)⟩

/-- C7 counterexample: a provider error body whose message field is
present but empty is not used: the extraction falls back to the transport
error text (JavaScript truthiness, not presence, decides the priority),
so the claimed present-field priority fails. -/
theorem present_empty_body_message_refutes_c7 :
    (callOpenAI [] (ApiOutcome.axiosError (some 500) (some "") "transport failed")).2 =
      Except.error "API error: transport failed" ∧
    ¬ (callOpenAI [] (ApiOutcome.axiosError (some 500) (some "") "transport failed")).2 =
      Except.error "API error: " := by
  decide

/-- C7 (amended): on an HTTP-level failure the client prefixes
`API error: ` and extracts the message with this priority: the structured
error body message field of the provider when present AND non-empty,
otherwise the transport-level error text; an HTTP 401 response with body
error message `invalid key` yields the outbound error event with content
`API error: invalid key`, and the log retains only the prior user turn
for that call. -/
theorem api_error_message_priority (st : PanelState) (now : Nat) (q : String)
    (statusCode : Option Nat) (body : Option String) (tmsg : String)
    (hk : ¬ st.apiKey = "") :
    (∀ b : String, body = some b → ¬ b = "" →
      (callOpenAI (st.messages ++ [⟨Role.user, q, some now, none⟩])
          (ApiOutcome.axiosError statusCode body tmsg)).2 =
        Except.error ("API error: " ++ b)) ∧
    (body = none ∨ body = some "" →
      (callOpenAI (st.messages ++ [⟨Role.user, q, some now, none⟩])
          (ApiOutcome.axiosError statusCode body tmsg)).2 =
        Except.error ("API error: " ++ tmsg)) ∧
    (handleQuestion st now q (ApiOutcome.axiosError (some 401) (some "invalid key") tmsg) =
      { messages := st.messages ++ [⟨Role.user, q, some now, none⟩],
        events := [UIEvent.error "API error: invalid key"],
        requests :=
          [formatMessages (st.messages ++ [⟨Role.user, q, some now, none⟩])] }) := by
  refine ⟨?_, ?_, ?_⟩
  · intro b hb hbne
    subst hb
    simp [callOpenAI, callResult, callTry, callCatch, jsOrElse, hbne]
  · rintro (hb | hb) <;> subst hb <;>
      simp [callOpenAI, callResult, callTry, callCatch, jsOrElse]
  · exact handleQuestion_callError st now q
      (ApiOutcome.axiosError (some 401) (some "invalid key") tmsg)
      "API error: invalid key" hk rfl

/-- Witness for the amended C7 at the claimed 401 example. -/
theorem api_error_message_priority_witness :
    ¬ (PanelState.mk "key" []).apiKey = "" ∧
    some "invalid key" = some "invalid key" ∧
    ¬ ("invalid key" : String) = "" ∧
    ((callOpenAI ((PanelState.mk "key" []).messages ++ [⟨Role.user, "q", some 4, none⟩])
        (ApiOutcome.axiosError (some 401) (some "invalid key")
          "Request failed with status code 401")).2 =
      Except.error ("API error: " ++ "invalid key")) ∧
    (handleQuestion (PanelState.mk "key" []) 4 "q"
        (ApiOutcome.axiosError (some 401) (some "invalid key")
          "Request failed with status code 401") =
      { messages := (PanelState.mk "key" []).messages ++ [⟨Role.user, "q", some 4, none⟩],
        events := [UIEvent.error "API error: invalid key"],
        requests :=
          [formatMessages ((PanelState.mk "key" []).messages ++
            [⟨Role.user, "q", some 4, none⟩])] }) :=
  ⟨by decide, rfl, by decide,
    (api_error_message_priority (PanelState.mk "key" []) 4 "q" (some 401)
        (some "invalid key") "Request failed with status code 401" (by decide)).1
      "invalid key" rfl (by decide),
    (api_error_message_priority (PanelState.mk "key" []) 4 "q" (some 401)
        (some "invalid key") "Request failed with status code 401" (by decide)).2.2⟩

/-- One `_handleQuestion` invocation only ever appends to the log: the
resulting log is the prior log followed by some (possibly empty) list of
new turns. -/
theorem handleQuestion_messages_eq_append (st : PanelState) (now : Nat)
    (q : String) (o : ApiOutcome) :
    ∃ t, (handleQuestion st now q o).messages = st.messages ++ t := by
  by_cases hk : st.apiKey = ""
  · exact ⟨[], by rw [handleQuestion_missingKey st now q o hk]; simp⟩
  · cases hr : callResult o with
    | error e =>
      exact ⟨[⟨Role.user, q, some now, none⟩],
        by rw [handleQuestion_callError st now q o e hk hr]⟩
    | ok r =>
      by_cases hre : r = ""
      · subst hre
        exact ⟨[⟨Role.user, q, some now, none⟩],
          by rw [handleQuestion_callOkEmpty st now q o hk hr]⟩
      · exact ⟨[⟨Role.user, q, some now, none⟩, ⟨Role.assistant, r, none, none⟩],
          by rw [handleQuestion_callOk st now q o r hk hr hre]⟩

/-- Across any sequence of `_handleQuestion` invocations, the log only
accumulates: the final log is the initial log followed by new turns. -/
theorem runSession_messages_eq_append (calls : List CallInput) (st : PanelState) :
    ∃ t, (runSession st calls).messages = st.messages ++ t := by
  induction calls generalizing st with
  | nil => exact ⟨[], by simp [runSession]⟩
  | cons c cs ih =>
    obtain ⟨t1, h1⟩ := handleQuestion_messages_eq_append st c.now c.question c.outcome
    obtain ⟨t2, h2⟩ := ih (stepSession st c)
    refine ⟨t1 ++ t2, ?_⟩
    have hstep : runSession st (c :: cs) = runSession (stepSession st c) cs := rfl
    rw [hstep, h2]
    simp [stepSession, h1]

/-- C8: the Message Log is strictly append-only. For every invocation of
the question handler, the log before the call is a prefix of the log
after the call (the new log is the old log followed by some list of new
turns, so no existing turn is edited, deleted or reordered), and the same
holds across any sequence of invocations on the session. -/
theorem log_is_append_only (st : PanelState) (now : Nat) (q : String)
    (o : ApiOutcome) :
    (∃ t, (handleQuestion st now q o).messages = st.messages ++ t) ∧
    (∀ calls : List CallInput, ∃ t,
      (runSession st calls).messages = st.messages ++ t) :=
  ⟨handleQuestion_messages_eq_append st now q o,
    fun calls => runSession_messages_eq_append calls st⟩

/-- C9: no exception escapes the question handler. Its result always
posts at most one outbound event (none, one response, or one error), and
whenever the try block of the handler raises an error, the handler
catches it and surfaces exactly one error event carrying that message;
when the try block completes, its events are delivered unchanged. -/
theorem no_uncaught_exception (st : PanelState) (now : Nat) (q : String)
    (o : ApiOutcome) :
    ((handleQuestion st now q o).events = [] ∨
      (∃ c, (handleQuestion st now q o).events = [UIEvent.response c]) ∨
      (∃ c, (handleQuestion st now q o).events = [UIEvent.error c])) ∧
    (∀ e, (handleQuestionBody st.apiKey st.messages now q o).2.2 = Except.error e →
      (handleQuestion st now q o).events = [UIEvent.error e]) ∧
    (∀ evs, (handleQuestionBody st.apiKey st.messages now q o).2.2 = Except.ok evs →
      (handleQuestion st now q o).events = evs) := by
  by_cases hk : st.apiKey = ""
  · simp [handleQuestion, handleQuestionBody, hk]
  · cases hr : callResult o with
    | error e =>
      simp [handleQuestion, handleQuestionBody, callOpenAI, hk, hr]
    | ok r =>
      by_cases hre : r = "" <;>
        simp [handleQuestion, handleQuestionBody, callOpenAI, hk, hr, hre]

/-- Witness for C9 on the missing-key failure path. -/
theorem no_uncaught_exception_witness :
    (handleQuestionBody (PanelState.mk "" []).apiKey (PanelState.mk "" []).messages
        0 "hi" (ApiOutcome.response [])).2.2 =
      Except.error "OpenAI API key is not configured. Please set it in your settings." ∧
    (handleQuestion (PanelState.mk "" []) 0 "hi" (ApiOutcome.response [])).events =
      [UIEvent.error "OpenAI API key is not configured. Please set it in your settings."] :=
  ⟨rfl,
    (no_uncaught_exception (PanelState.mk "" []) 0 "hi" (ApiOutcome.response [])).2.1
      "OpenAI API key is not configured. Please set it in your settings." rfl⟩

/-- C10: when the credential precondition passes and the call succeeds
but returns the empty string, the handler appends only the user turn (no
assistant turn) and emits no outbound UI event at all — neither a
response nor an error event (the returned text fails the JavaScript
truthiness guard). -/
theorem empty_success_appends_user_only (st : PanelState) (now : Nat)
    (q : String) (o : ApiOutcome) (hk : ¬ st.apiKey = "")
    (ht : (callOpenAI (st.messages ++ [⟨Role.user, q, some now, none⟩]) o).2 =
      Except.ok "") :
    handleQuestion st now q o =
      { messages := st.messages ++ [⟨Role.user, q, some now, none⟩],
        events := [],
        requests :=
          [formatMessages (st.messages ++ [⟨Role.user, q, some now, none⟩])] } :=
  handleQuestion_callOkEmpty st now q o hk ht

/-- Witness for C10: a well-formed response whose first choice carries
empty content. -/
theorem empty_success_appends_user_only_witness :
    ¬ (PanelState.mk "key" []).apiKey = "" ∧
    (callOpenAI ((PanelState.mk "key" []).messages ++ [⟨Role.user, "q", some 6, none⟩])
        (ApiOutcome.response [⟨⟨"assistant", ""⟩⟩])).2 = Except.ok "" ∧
    handleQuestion (PanelState.mk "key" []) 6 "q"
        (ApiOutcome.response [⟨⟨"assistant", ""⟩⟩]) =
      { messages := (PanelState.mk "key" []).messages ++ [⟨Role.user, "q", some 6, none⟩],
        events := [],
        requests :=
          [formatMessages ((PanelState.mk "key" []).messages ++
            [⟨Role.user, "q", some 6, none⟩])] } :=
  ⟨by decide, by decide,
    empty_success_appends_user_only (PanelState.mk "key" []) 6 "q"
      (ApiOutcome.response [⟨⟨"assistant", ""⟩⟩]) (by decide) (by decide)⟩
